import Mathlib

/-!
Shallow embedding of the reservation / waitlist core of the pickleball court
management server (Express + SQLite; handlers in src/unnamed/part_000, schema
in src/server/init_db.js).

Modelling conventions:
* SQLite TEXT datetimes are always compared through datetime(...), which is a
  total order on well-formed datetime strings; instants are modelled as Int.
* Table rows are structures mirroring exactly the columns the handlers read or
  write; AUTOINCREMENT primary keys are modelled by the nextResId / nextWaitId
  counters carried in the database state.
* Courts and players only matter to these handlers through the existence of a
  row with a given id (the JOINs in the SELECT statements); they are modelled
  as lists of ids.  Foreign keys are not enforced (the source never issues
  PRAGMA foreign_keys), so INSERTs never consult them.
* The PATCH handlers build a SET clause from the request-body keys.  A patch is
  modelled as a record with one Option field per updatable column.  An empty
  body produces the malformed statement UPDATE t SET WHERE id = ?, which errors
  and leaves the state unchanged, answering 500; the model has an explicit
  branch for that case.
* The POST /api/reservations success path (lines 201-204 of the source) builds
  its parameter array from the variable payment_status, which is not among the
  variables destructured from req.body at line 183; evaluating that array
  throws ReferenceError inside the try block before the INSERT statement runs,
  so the handler answers 500 and writes nothing.  (The reservations table in
  init_db.js has no payment_status column either, so the INSERT could not
  succeed even if the variable were bound.)  The model returns error500 with
  the state unchanged on that path; the created constructor mirrors the 201
  response at line 213, which is unreachable.
-/

namespace Pickleball

/-- Reservation status column (CHECK constraint in init_db.js). -/
inductive RStatus where
  | booked
  | cancelled
  | completed
deriving DecidableEq, Repr

/-- Waitlist status column (CHECK constraint in init_db.js). -/
inductive WStatus where
  | waiting
  | notified
  | booked
  | cancelled
  | expired
deriving DecidableEq, Repr

/-- A row of the reservations table (columns the handlers touch). -/
structure Reservation where
  id : Nat
  court_id : Nat
  player_id : Nat
  start_time : Int
  end_time : Int
  status : RStatus
  price_cents : Int
deriving DecidableEq, Repr

/-- A row of the waitlist table. -/
structure WaitlistEntry where
  id : Nat
  court_id : Nat
  player_id : Nat
  start_time : Int
  end_time : Int
  priority : Int
  status : WStatus
  created_at : Int
deriving DecidableEq, Repr

/-- The database state seen by the reservation / waitlist handlers. -/
structure DB where
  courts : List Nat
  players : List Nat
  reservations : List Reservation
  waitlist : List WaitlistEntry
  nextResId : Nat
  nextWaitId : Nat
deriving DecidableEq, Repr

/-- status IN ('booked','completed'): the statuses that occupy the court. -/
def isActiveB (r : Reservation) : Bool :=
  match r.status with
  | RStatus.booked => true
  | RStatus.completed => true
  | RStatus.cancelled => false

/-- The conflict query shared by POST /api/reservations (lines 186-192) and
PATCH /api/waitlist/:id (lines 314-320):
SELECT id FROM reservations WHERE court_id = ? AND status IN
('booked','completed') AND NOT (datetime(end_time) <= datetime(s) OR
datetime(start_time) >= datetime(e)). -/
def conflictQuery (rs : List Reservation) (court : Nat) (s e : Int) :
    List Reservation :=
  rs.filter fun r =>
    r.court_id == court && isActiveB r &&
      !(decide (r.end_time ≤ s) || decide (r.start_time ≥ e))

/-- The request body of POST /api/reservations (line 183). -/
structure ResRequest where
  court_id : Nat
  player_id : Nat
  start_time : Int
  end_time : Int
  price_cents : Option Int
  status : Option RStatus
deriving DecidableEq, Repr

/-- Outcome of POST /api/reservations.  created mirrors the 201 response of
line 213; conflictWaitlisted is the 409 response of line 199; error500 is the
catch-all 500 of line 215. -/
inductive PostResResult where
  | created (r : Reservation)
  | conflictWaitlisted
  | error500
deriving DecidableEq, Repr

/-- POST /api/reservations (lines 182-217).  now stands for datetime('now')
used by the created_at DEFAULT of the waitlist table. -/
def postReservation (db : DB) (now : Int) (req : ResRequest) :
    PostResResult × DB :=
  let conflicts :=
    conflictQuery db.reservations req.court_id req.start_time req.end_time
  if conflicts.isEmpty then
    -- lines 201-213: the parameter array references the unbound identifier
    -- payment_status, so ReferenceError is thrown before the INSERT runs and
    -- the catch block answers 500; no row is written.
    (PostResResult.error500, db)
  else
    -- lines 193-199: INSERT INTO waitlist (court_id, player_id, start_time,
    -- end_time, priority, status) VALUES (?,?,?,?,0, "waiting"), then 409.
    let entry : WaitlistEntry :=
      { id := db.nextWaitId
        court_id := req.court_id
        player_id := req.player_id
        start_time := req.start_time
        end_time := req.end_time
        priority := 0
        status := WStatus.waiting
        created_at := now }
    (PostResResult.conflictWaitlisted,
      { db with
          waitlist := db.waitlist ++ [entry]
          nextWaitId := db.nextWaitId + 1 })

/-- Patch body for PATCH /api/reservations/:id: one optional value per
updatable column of the reservations table. -/
structure ResPatch where
  court_id : Option Nat := none
  player_id : Option Nat := none
  start_time : Option Int := none
  end_time : Option Int := none
  status : Option RStatus := none
  price_cents : Option Int := none
deriving DecidableEq, Repr

/-- True when the request body has no keys (the generated SQL is then the
malformed UPDATE reservations SET WHERE id = ?, which errors). -/
def ResPatch.isEmpty (p : ResPatch) : Bool :=
  p.court_id.isNone && p.player_id.isNone && p.start_time.isNone &&
    p.end_time.isNone && p.status.isNone && p.price_cents.isNone

/-- Effect of the generated SET clause on one reservations row. -/
def applyResPatch (p : ResPatch) (r : Reservation) : Reservation :=
  { r with
      court_id := p.court_id.getD r.court_id
      player_id := p.player_id.getD r.player_id
      start_time := p.start_time.getD r.start_time
      end_time := p.end_time.getD r.end_time
      status := p.status.getD r.status
      price_cents := p.price_cents.getD r.price_cents }

/-- PATCH /api/reservations/:id (lines 219-243): UPDATE reservations SET ...
WHERE id = ?.  No conflict check, no status check, no waitlist access. -/
def patchReservation (db : DB) (rid : Nat) (p : ResPatch) : DB :=
  if p.isEmpty then db
  else
    { db with
        reservations :=
          db.reservations.map fun r =>
            if r.id == rid then applyResPatch p r else r }

/-- DELETE /api/reservations/:id (lines 245-253). -/
def deleteReservation (db : DB) (rid : Nat) : DB :=
  { db with reservations := db.reservations.filter fun r => !(r.id == rid) }

/-- Patch body for PATCH /api/waitlist/:id. -/
structure WaitPatch where
  court_id : Option Nat := none
  player_id : Option Nat := none
  start_time : Option Int := none
  end_time : Option Int := none
  priority : Option Int := none
  status : Option WStatus := none
deriving DecidableEq, Repr

/-- True when the request body has no keys. -/
def WaitPatch.isEmpty (p : WaitPatch) : Bool :=
  p.court_id.isNone && p.player_id.isNone && p.start_time.isNone &&
    p.end_time.isNone && p.priority.isNone && p.status.isNone

/-- Effect of the generated SET clause on one waitlist row. -/
def applyWaitPatch (p : WaitPatch) (w : WaitlistEntry) : WaitlistEntry :=
  { w with
      court_id := p.court_id.getD w.court_id
      player_id := p.player_id.getD w.player_id
      start_time := p.start_time.getD w.start_time
      end_time := p.end_time.getD w.end_time
      priority := p.priority.getD w.priority
      status := p.status.getD w.status }

/-- Outcome of PATCH /api/waitlist/:id.  promoted is the 201 response of line
338 carrying the freshly inserted reservation; stillWaiting is the 200
response of line 341 carrying the updated entry; error500 is the catch-all
500 (empty body, missing row, or a JOIN against a missing court or player
making the SELECT return no row, so destructuring throws). -/
inductive WaitPatchResult where
  | promoted (r : Reservation)
  | stillWaiting (w : WaitlistEntry)
  | error500
deriving DecidableEq, Repr

/-- PATCH /api/waitlist/:id (lines 291-345): apply the UPDATE, re-read the
entry (JOIN courts, JOIN players), run the conflict query for the entry's
court and interval; if no conflict, INSERT a reservation with status booked
and price_cents 0 (lines 323-326) and DELETE the waitlist row (line 328),
answering 201 with the new reservation; otherwise answer with the updated
entry.  The conflict check does not look at the entry's status. -/
def patchWaitlist (db : DB) (wid : Nat) (p : WaitPatch) :
    WaitPatchResult × DB :=
  if p.isEmpty then (WaitPatchResult.error500, db)
  else
    let wl :=
      db.waitlist.map fun w => if w.id == wid then applyWaitPatch p w else w
    let db1 := { db with waitlist := wl }
    match wl.find? (fun w => w.id == wid) with
    | none => (WaitPatchResult.error500, db1)
    | some u =>
      if db.courts.contains u.court_id && db.players.contains u.player_id then
        let conflicts :=
          conflictQuery db1.reservations u.court_id u.start_time u.end_time
        if conflicts.isEmpty then
          let newRes : Reservation :=
            { id := db1.nextResId
              court_id := u.court_id
              player_id := u.player_id
              start_time := u.start_time
              end_time := u.end_time
              status := RStatus.booked
              price_cents := 0 }
          (WaitPatchResult.promoted newRes,
            { db1 with
                reservations := db1.reservations ++ [newRes]
                waitlist := wl.filter fun w => !(w.id == wid)
                nextResId := db1.nextResId + 1 })
        else (WaitPatchResult.stillWaiting u, db1)
      else (WaitPatchResult.error500, db1)

/-- DELETE /api/waitlist/:id (lines 347-355). -/
def deleteWaitlist (db : DB) (wid : Nat) : DB :=
  { db with waitlist := db.waitlist.filter fun w => !(w.id == wid) }

/-- Half-open interval overlap: [s1,e1) and [s2,e2) overlap iff
s1 < e2 and s2 < e1. -/
def overlapB (s1 e1 s2 e2 : Int) : Bool :=
  decide (s1 < e2) && decide (s2 < e1)

/-- Two reservation rows may legally coexist: they are on different courts,
or one of them is not active, or their intervals do not overlap. -/
def compatibleRes (r1 r2 : Reservation) : Bool :=
  !(r1.court_id == r2.court_id && isActiveB r1 && isActiveB r2 &&
      overlapB r1.start_time r1.end_time r2.start_time r2.end_time)

/-- Every pair of rows in the list is compatible. -/
def pairwiseCompatible : List Reservation → Bool
  | [] => true
  | r :: rs => rs.all (compatibleRes r) && pairwiseCompatible rs

/-- The global no-overlap invariant: no two active reservations on the same
court have overlapping intervals. -/
def noOverlap (db : DB) : Prop :=
  pairwiseCompatible db.reservations = true

instance (db : DB) : Decidable (noOverlap db) := by
  unfold noOverlap
  infer_instance

end Pickleball

namespace Pickleball

/-! ### Helper lemmas -/

/-- Appending one row to a pairwise-compatible list stays compatible exactly
when the new row is compatible with every existing row. -/
theorem pairwiseCompatible_append (l : List Reservation) (x : Reservation) :
    pairwiseCompatible (l ++ [x]) =
      (pairwiseCompatible l && l.all fun a => compatibleRes a x) := by
  induction l with
  | nil => simp [pairwiseCompatible]
  | cons b t ih =>
      simp only [List.cons_append, pairwiseCompatible, List.all_append,
        List.all_cons, List.all_nil, ih, List.all_eq_true]
      cases h1 : compatibleRes b x <;> cases h2 : t.all (compatibleRes b) <;>
        cases h3 : pairwiseCompatible t <;>
        simp_all [List.all_eq_true]

/-- Removing rows preserves pairwise compatibility. -/
theorem pairwiseCompatible_filter (q : Reservation → Bool) :
    ∀ l : List Reservation, pairwiseCompatible l = true →
      pairwiseCompatible (l.filter q) = true := by
  intro l
  induction l with
  | nil => intro _; rfl
  | cons b t ih =>
      intro h
      simp only [pairwiseCompatible, Bool.and_eq_true, List.all_eq_true] at h
      obtain ⟨hall, hpc⟩ := h
      by_cases hq : q b = true
      · rw [List.filter_cons_of_pos hq]
        simp only [pairwiseCompatible, Bool.and_eq_true, List.all_eq_true]
        exact ⟨fun x hx => hall x (List.mem_filter.mp hx).1, ih hpc⟩
      · rw [List.filter_cons_of_neg hq]
        exact ih hpc

/-- When the conflict query returns no row, a fresh booked reservation with
the queried court and interval is compatible with every existing row. -/
theorem all_compatible_of_conflictQuery_eq_nil (rs : List Reservation)
    (c pid nid : Nat) (s e : Int)
    (h : conflictQuery rs c s e = []) :
    (rs.all fun a =>
      compatibleRes a
        { id := nid, court_id := c, player_id := pid, start_time := s,
          end_time := e, status := RStatus.booked, price_cents := 0 }) = true := by
  rw [List.all_eq_true]
  intro a ha
  have hnp := List.filter_eq_nil_iff.mp h a ha
  by_cases hc : a.court_id = c
  · by_cases hA : isActiveB a = true
    · have hd : a.end_time ≤ s ∨ a.start_time ≥ e := by
        by_contra hcon
        push_neg at hcon
        exact hnp (by simp [hc, hA, hcon.1, hcon.2])
      simp only [compatibleRes, overlapB, isActiveB, hc, hA, beq_self_eq_true,
        Bool.true_and, Bool.and_true, Bool.not_eq_true', Bool.and_eq_false_iff,
        decide_eq_false_iff_not, not_lt]
      rcases hd with hd | hd
      · right; right; omega
      · right; left; omega
    · simp [compatibleRes, hA]
  · simp [compatibleRes, hc]

/-- Full characterisation of a promoting run of PATCH /api/waitlist/:id. -/
theorem patchWaitlist_promoted_spec {db : DB} {wid : Nat} {p : WaitPatch}
    {r : Reservation} {db' : DB}
    (h : patchWaitlist db wid p = (WaitPatchResult.promoted r, db')) :
    p.isEmpty = false ∧
    r.status = RStatus.booked ∧ r.price_cents = 0 ∧ r.id = db.nextResId ∧
    conflictQuery db.reservations r.court_id r.start_time r.end_time = [] ∧
    db' = { db with
             reservations := db.reservations ++ [r]
             waitlist := (db.waitlist.map fun w =>
                 if w.id == wid then applyWaitPatch p w else w).filter
               fun w => !(w.id == wid)
             nextResId := db.nextResId + 1 } := by
  simp only [patchWaitlist] at h
  split at h
  · simp at h
  · rename_i hne
    split at h
    · simp at h
    · rename_i u hfind
      split at h
      · split at h
        · rename_i hmem hconf
          injection h with h1 h2
          injection h1 with h1
          subst h1
          subst h2
          refine ⟨by simpa using hne, rfl, rfl, rfl, ?_, rfl⟩
          exact List.isEmpty_iff.mp hconf
        · simp at h
      · simp at h

/-- Mapping a patch over rows whose ids all differ from the target id is the
identity. -/
theorem map_patch_id {l : List WaitlistEntry} {wid : Nat}
    {f : WaitlistEntry → WaitlistEntry}
    (h : ∀ w ∈ l, (w.id == wid) = false) :
    (l.map fun w => if w.id == wid then f w else w) = l := by
  induction l with
  | nil => rfl
  | cons b t ih =>
      simp only [List.map_cons]
      rw [if_neg (by simp [h b (List.mem_cons_self b t)]),
        ih fun w hw => h w (List.mem_cons_of_mem b hw)]

/-- PATCH /api/waitlist/:id preserves the no-overlap invariant: it only ever
inserts a reservation whose conflict query came back empty. -/
theorem noOverlap_patchWaitlist (db : DB) (wid : Nat) (p : WaitPatch)
    (h : noOverlap db) : noOverlap (patchWaitlist db wid p).2 := by
  simp only [patchWaitlist]
  split
  · exact h
  · split
    · exact h
    · split
      · split
        · rename_i u hfind hmem hconf
          show pairwiseCompatible (db.reservations ++ [_]) = true
          rw [pairwiseCompatible_append, Bool.and_eq_true]
          refine ⟨h, ?_⟩
          exact all_compatible_of_conflictQuery_eq_nil db.reservations
            u.court_id u.player_id db.nextResId u.start_time u.end_time
            (List.isEmpty_iff.mp hconf)
        · exact h
      · exact h

/-- POST /api/reservations never changes the reservations table: the conflict
branch writes only to the waitlist and the no-conflict branch dies on the
unbound payment_status identifier before its INSERT. -/
theorem postReservation_reservations (db : DB) (now : Int) (req : ResRequest) :
    (postReservation db now req).2.reservations = db.reservations := by
  simp only [postReservation]
  split <;> rfl

/-- POST /api/reservations preserves the no-overlap invariant. -/
theorem noOverlap_postReservation (db : DB) (now : Int) (req : ResRequest)
    (h : noOverlap db) : noOverlap (postReservation db now req).2 := by
  show pairwiseCompatible (postReservation db now req).2.reservations = true
  rw [postReservation_reservations]
  exact h

/-- DELETE /api/reservations/:id preserves the no-overlap invariant. -/
theorem noOverlap_deleteReservation (db : DB) (rid : Nat) (h : noOverlap db) :
    noOverlap (deleteReservation db rid) :=
  pairwiseCompatible_filter _ db.reservations h

/-- DELETE /api/waitlist/:id preserves the no-overlap invariant. -/
theorem noOverlap_deleteWaitlist (db : DB) (wid : Nat) (h : noOverlap db) :
    noOverlap (deleteWaitlist db wid) := h

/-- On conflict, POST /api/reservations answers 409 and appends exactly one
waiting entry carrying the requested court, player and interval. -/
theorem postReservation_conflict_case (db : DB) (now : Int) (req : ResRequest)
    (h : conflictQuery db.reservations req.court_id req.start_time
      req.end_time ≠ []) :
    postReservation db now req =
      (PostResResult.conflictWaitlisted,
        { db with
            waitlist := db.waitlist ++
              [{ id := db.nextWaitId, court_id := req.court_id,
                 player_id := req.player_id, start_time := req.start_time,
                 end_time := req.end_time, priority := 0,
                 status := WStatus.waiting, created_at := now }]
            nextWaitId := db.nextWaitId + 1 }) := by
  simp only [postReservation]
  rw [if_neg (by simp [h])]

/-! ### Concrete states used by witnesses and counterexamples -/

/-- Two back-to-back booked reservations on court 1. -/
def dbA : DB :=
  ⟨[1], [1],
   [⟨1, 1, 1, 0, 10, RStatus.booked, 0⟩, ⟨2, 1, 1, 10, 20, RStatus.booked, 0⟩],
   [], 3, 1⟩

/-- Move the start of reservation 2 to 5, inside reservation 1. -/
def pA : ResPatch := { start_time := some 5 }

/-- A non-conflicting booking request on court 1. -/
def reqA : ResRequest := ⟨1, 1, 30, 40, none, none⟩

/-- A waitlist patch touching one field. -/
def wpA : WaitPatch := { priority := some 1 }

/-- Existing court and player, empty reservations table. -/
def db2 : DB := ⟨[1], [1], [], [], 1, 1⟩

/-- A perfectly valid booking request for the free court 1. -/
def req2 : ResRequest := ⟨1, 1, 0, 10, some 100, none⟩

/-- One booked reservation [0,10) on court 1. -/
def db3 : DB := ⟨[1], [1, 2], [⟨1, 1, 1, 0, 10, RStatus.booked, 0⟩], [], 2, 1⟩

/-- A request from player 2 overlapping that reservation. -/
def req3 : ResRequest := ⟨1, 2, 5, 15, some 200, none⟩

/-- A booked reservation and an overlapping waiting entry for player 2. -/
def dbB : DB :=
  ⟨[1], [1, 2], [⟨1, 1, 1, 0, 10, RStatus.booked, 0⟩],
   [⟨1, 1, 2, 0, 10, 0, WStatus.waiting, 0⟩], 2, 2⟩

/-- Cancel the booking. -/
def pB : ResPatch := { status := some RStatus.cancelled }

/-- State after cancelling reservation 1 of dbB. -/
def dbBafter : DB :=
  ⟨[1], [1, 2], [⟨1, 1, 1, 0, 10, RStatus.cancelled, 0⟩],
   [⟨1, 1, 2, 0, 10, 0, WStatus.waiting, 0⟩], 2, 2⟩

/-- One waiting entry for the free court 1. -/
def dbP : DB := ⟨[1], [1], [], [⟨1, 1, 1, 0, 10, 0, WStatus.waiting, 0⟩], 1, 2⟩

/-- Touch the entry's priority. -/
def pP : WaitPatch := { priority := some 1 }

/-- The reservation the promotion inserts. -/
def rP : Reservation := ⟨1, 1, 1, 0, 10, RStatus.booked, 0⟩

/-- State after the promoting update: entry gone, reservation present. -/
def dbPafter : DB := ⟨[1], [1], [rP], [], 2, 2⟩

/-- One cancelled waitlist entry for the free court 1. -/
def dbC : DB :=
  ⟨[1], [1], [], [⟨1, 1, 1, 0, 10, 0, WStatus.cancelled, 5⟩], 1, 2⟩

/-- Touch the cancelled entry's priority. -/
def pC : WaitPatch := { priority := some 2 }

/-- The reservation created for the cancelled entry. -/
def rC : Reservation := ⟨1, 1, 1, 0, 10, RStatus.booked, 0⟩

/-- One booked reservation [9,10) on court 1. -/
def db7 : DB := ⟨[1], [1], [⟨1, 1, 1, 9, 10, RStatus.booked, 0⟩], [], 2, 1⟩

/-- A back-to-back request [10,11) on the same court. -/
def req7 : ResRequest := ⟨1, 1, 10, 11, none, none⟩

/-- One cancelled reservation. -/
def dbD : DB := ⟨[1], [1], [⟨1, 1, 1, 0, 10, RStatus.cancelled, 0⟩], [], 2, 1⟩

/-- Resurrect it to booked. -/
def pD : ResPatch := { status := some RStatus.booked }

/-- A completed reservation. -/
def rD2 : Reservation := ⟨1, 1, 1, 0, 10, RStatus.completed, 0⟩

/-- Database holding only rD2. -/
def dbD2 : DB := ⟨[1], [1], [rD2], [], 2, 1⟩

/-- Cancel the completed reservation. -/
def pD2 : ResPatch := { status := some RStatus.cancelled }

/-- One booked reservation [0,10) on court 1. -/
def db9 : DB := ⟨[1], [1], [⟨1, 1, 1, 0, 10, RStatus.booked, 0⟩], [], 2, 1⟩

/-- An empty-interval request (start = end) overlapping it. -/
def req9 : ResRequest := ⟨1, 1, 5, 5, none, none⟩

end Pickleball

namespace Pickleball

/-! ### Claims -/

/-- C1, counterexample: the no-overlap invariant is NOT preserved by every
operation.  dbA satisfies it; PATCH /api/reservations/2 with start_time 5
moves reservation 2 to [5,20), overlapping the booked reservation [0,10) on
the same court, and the handler applies it without any conflict check. -/
theorem C1_patch_breaks_noOverlap :
    noOverlap dbA ∧ ¬ noOverlap (patchReservation dbA 2 pA) := by decide

/-- C1 (amended): the no-overlap invariant is preserved by booking creation
(POST /api/reservations), by waitlist update / promotion
(PATCH /api/waitlist/:id) and by the delete handlers, but not by reservation
update (PATCH /api/reservations/:id), which rewrites arbitrary fields with no
conflict check. -/
theorem C1_noOverlap_preserved_except_patch (db : DB) (now : Int)
    (req : ResRequest) (wid : Nat) (wp : WaitPatch) (rid dwid : Nat)
    (h : noOverlap db) :
    noOverlap (postReservation db now req).2 ∧
    noOverlap (patchWaitlist db wid wp).2 ∧
    noOverlap (deleteReservation db rid) ∧
    noOverlap (deleteWaitlist db dwid) :=
  ⟨noOverlap_postReservation db now req h, noOverlap_patchWaitlist db wid wp h,
   noOverlap_deleteReservation db rid h, noOverlap_deleteWaitlist db dwid h⟩

/-- C1, witness for the amended theorem at a concrete state. -/
theorem C1_noOverlap_preserved_witness :
    noOverlap dbA ∧
    (noOverlap (postReservation dbA 0 reqA).2 ∧
     noOverlap (patchWaitlist dbA 1 wpA).2 ∧
     noOverlap (deleteReservation dbA 1) ∧
     noOverlap (deleteWaitlist dbA 1)) :=
  ⟨by decide, C1_noOverlap_preserved_except_patch dbA 0 reqA 1 wpA 1 1 (by decide)⟩

/-- C2: for a conflict-free request the handler does NOT insert a booking and
does NOT return it; the insert path throws on the unbound payment_status
identifier (line 203 of the source), so the request answers 500 and the state
is unchanged.  Evaluated at a fully valid request (existing court 1 and
player 1, interval [0,10), empty reservations table). -/
theorem C2_create_path_returns_500 :
    conflictQuery db2.reservations req2.court_id req2.start_time req2.end_time
        = [] ∧
    postReservation db2 0 req2 = (PostResResult.error500, db2) := by decide

/-- C3: a booking request whose interval conflicts with an active booking on
the same court gets the 409 conflict response, leaves the reservations table
unchanged, and appends exactly one waiting waitlist entry carrying the
requested court, player and interval (priority 0). -/
theorem C3_conflict_creates_waitlist_entry (db : DB) (now : Int)
    (req : ResRequest)
    (h : conflictQuery db.reservations req.court_id req.start_time
      req.end_time ≠ []) :
    postReservation db now req =
      (PostResResult.conflictWaitlisted,
        { db with
            waitlist := db.waitlist ++
              [{ id := db.nextWaitId, court_id := req.court_id,
                 player_id := req.player_id, start_time := req.start_time,
                 end_time := req.end_time, priority := 0,
                 status := WStatus.waiting, created_at := now }]
            nextWaitId := db.nextWaitId + 1 }) :=
  postReservation_conflict_case db now req h

/-- C3, witness: player 2 requests [5,15) on court 1 which already holds the
booked reservation [0,10). -/
theorem C3_conflict_creates_waitlist_entry_witness :
    conflictQuery db3.reservations req3.court_id req3.start_time req3.end_time
        ≠ [] ∧
    postReservation db3 7 req3 =
      (PostResResult.conflictWaitlisted,
        { db3 with
            waitlist := db3.waitlist ++
              [{ id := db3.nextWaitId, court_id := req3.court_id,
                 player_id := req3.player_id, start_time := req3.start_time,
                 end_time := req3.end_time, priority := 0,
                 status := WStatus.waiting, created_at := 7 }]
            nextWaitId := db3.nextWaitId + 1 }) :=
  ⟨by decide, C3_conflict_creates_waitlist_entry db3 7 req3 (by decide)⟩

/-- C4, counterexample: cancelling a booking triggers no promotion sweep.
dbB holds the booked reservation [0,10) on court 1 and a waiting entry for
the same interval; after PATCH sets the reservation to cancelled, the entry
is still waiting and no booking was created for it. -/
theorem C4_cancel_triggers_no_promotion :
    patchReservation dbB 1 pB = dbBafter ∧
    dbBafter.waitlist = dbB.waitlist ∧
    (∀ w ∈ dbBafter.waitlist, w.status = WStatus.waiting) ∧
    dbBafter.reservations.length = dbB.reservations.length := by decide

/-- C4 (amended): no reservation operation touches the waitlist.  Cancelling
(PATCH /api/reservations/:id) and deleting (DELETE /api/reservations/:id)
leave the waitlist untouched; there is no promotion sweep, no candidate
ordering by priority or createdAt anywhere in the code — promotion happens
only inside PATCH /api/waitlist/:id, for that single entry. -/
theorem C4_reservation_ops_leave_waitlist :
    ∀ (db : DB) (rid : Nat) (p : ResPatch) (rid2 : Nat),
      (patchReservation db rid p).waitlist = db.waitlist ∧
      (deleteReservation db rid2).waitlist = db.waitlist := by
  intro db rid p rid2
  refine ⟨?_, rfl⟩
  simp only [patchReservation]
  split <;> rfl

/-- C5, counterexample: a promoted waitlist entry is not kept with status
booked — it is deleted.  After the promoting update of entry 1 the waitlist
is empty. -/
theorem C5_entry_not_kept :
    (patchWaitlist dbP 1 pP).1 = WaitPatchResult.promoted rP ∧
    (patchWaitlist dbP 1 pP).2.waitlist = [] := by decide

/-- C5 (amended): when a waitlist entry is promoted, a booking with status
booked is appended for it and the entry is DELETED from the waitlist (line
328 of the source) rather than kept with status booked. -/
theorem C5_promotion_deletes_entry (db : DB) (wid : Nat) (p : WaitPatch)
    (r : Reservation) (db' : DB)
    (h : patchWaitlist db wid p = (WaitPatchResult.promoted r, db')) :
    db'.reservations = db.reservations ++ [r] ∧ r.status = RStatus.booked ∧
    ∀ w ∈ db'.waitlist, w.id ≠ wid := by
  obtain ⟨_, hst, _, _, _, hdb'⟩ := patchWaitlist_promoted_spec h
  subst hdb'
  refine ⟨rfl, hst, ?_⟩
  intro w hw
  have := (List.mem_filter.mp hw).2
  simpa using this

/-- C5, witness at the concrete promoting update of dbP. -/
theorem C5_promotion_deletes_entry_witness :
    patchWaitlist dbP 1 pP = (WaitPatchResult.promoted rP, dbPafter) ∧
    (dbPafter.reservations = dbP.reservations ++ [rP] ∧
     rP.status = RStatus.booked ∧
     ∀ w ∈ dbPafter.waitlist, w.id ≠ 1) :=
  ⟨by decide, C5_promotion_deletes_entry dbP 1 pP rP dbPafter (by decide)⟩

/-- C6, counterexample: promotion does not only consider waiting entries.
The only entry of dbC has status cancelled, yet updating its priority
promotes it into a booking. -/
theorem C6_nonwaiting_promoted :
    (∀ w ∈ dbC.waitlist, w.status = WStatus.cancelled) ∧
    (patchWaitlist dbC 1 pC).1 = WaitPatchResult.promoted rC := by decide

/-- C6 (amended): re-running the recheck after a promotion promotes nothing
new — not because non-waiting entries are excluded (the conflict check
ignores status) but because the promoted entry was deleted, so the second run
finds no row and answers 500 leaving the state unchanged. -/
theorem C6_recheck_idempotent {db : DB} {wid : Nat} {p : WaitPatch}
    {r : Reservation} {db' : DB}
    (h : patchWaitlist db wid p = (WaitPatchResult.promoted r, db')) :
    patchWaitlist db' wid p = (WaitPatchResult.error500, db') := by
  obtain ⟨hne, _, _, _, _, hdb'⟩ := patchWaitlist_promoted_spec h
  subst hdb'
  have hid : ∀ w ∈ (db.waitlist.map fun w =>
      if w.id == wid then applyWaitPatch p w else w).filter
        (fun w => !(w.id == wid)), (w.id == wid) = false := by
    intro w hw
    have := (List.mem_filter.mp hw).2
    simpa using this
  simp only [patchWaitlist]
  rw [if_neg (by simp [hne])]
  rw [map_patch_id hid]
  rw [List.find?_eq_none.mpr fun x hx => by simp [hid x hx]]

/-- C6, witness: rerunning the promoting update of dbP on its result state
promotes nothing and changes nothing. -/
theorem C6_recheck_idempotent_witness :
    patchWaitlist dbP 1 pP = (WaitPatchResult.promoted rP, dbPafter) ∧
    patchWaitlist dbPafter 1 pP = (WaitPatchResult.error500, dbPafter) :=
  ⟨by decide, @C6_recheck_idempotent dbP 1 pP rP dbPafter (by decide)⟩

/-- C7: a back-to-back request ([10,11) after a booked [9,10) on the same
court) is correctly found conflict-free by the overlap query, but it does not
succeed as a booking: the insert path dies on the unbound payment_status
identifier and answers 500 with the state unchanged. -/
theorem C7_back_to_back_no_conflict_but_500 :
    conflictQuery db7.reservations req7.court_id req7.start_time req7.end_time
        = [] ∧
    postReservation db7 0 req7 = (PostResResult.error500, db7) := by decide

/-- C8, counterexample: the status state machine is not enforced.  The only
reservation of dbD is cancelled (terminal), yet PATCH sets it back to booked
with no InvalidTransition error. -/
theorem C8_terminal_not_terminal :
    (∀ r ∈ dbD.reservations, r.status = RStatus.cancelled) ∧
    ∀ r ∈ (patchReservation dbD 1 pD).reservations,
      r.status = RStatus.booked := by decide

/-- C8 (amended): PATCH /api/reservations/:id sets any requested status
unconditionally, whatever the current status — there is no InvalidTransition
check and terminal states are not terminal. -/
theorem C8_patch_sets_any_status (db : DB) (rid : Nat) (p : ResPatch)
    (s : RStatus) (r : Reservation) (hs : p.status = some s)
    (hr : r ∈ db.reservations) (hid : r.id = rid) :
    applyResPatch p r ∈ (patchReservation db rid p).reservations ∧
    (applyResPatch p r).status = s := by
  have hne : p.isEmpty = false := by
    simp [ResPatch.isEmpty, hs]
  constructor
  · simp only [patchReservation]
    rw [if_neg (by simp [hne])]
    refine List.mem_map.mpr ⟨r, hr, ?_⟩
    rw [if_pos (by simp [hid])]
  · simp [applyResPatch, hs]

/-- C8, witness: cancelling the completed reservation rD2 succeeds and stores
status cancelled. -/
theorem C8_patch_sets_any_status_witness :
    pD2.status = some RStatus.cancelled ∧ rD2 ∈ dbD2.reservations ∧
    rD2.id = 1 ∧
    (applyResPatch pD2 rD2 ∈ (patchReservation dbD2 1 pD2).reservations ∧
     (applyResPatch pD2 rD2).status = RStatus.cancelled) :=
  ⟨by decide, by decide, by decide,
   C8_patch_sets_any_status dbD2 1 pD2 RStatus.cancelled rD2 (by decide)
     (by decide) (by decide)⟩

/-- C9, counterexample: an invalid interval (start = end = 5) is not rejected
with InvalidInterval before any mutation — the request runs the conflict
query, matches the booked [0,10), and a waitlist entry is created for the
degenerate interval. -/
theorem C9_invalid_interval_enqueued :
    req9.start_time ≥ req9.end_time ∧
    (postReservation db9 3 req9).2.waitlist =
      db9.waitlist ++ [⟨1, 1, 1, 5, 5, 0, WStatus.waiting, 3⟩] := by decide

/-- C9 (amended): POST /api/reservations performs no validation at all.  Its
outcome never depends on the courts and players tables (no NotFound), and any
request — the interval valid or not — goes straight to the conflict check; on
conflict a waitlist entry is created for it. -/
theorem C9_no_validation :
    ∀ (db : DB) (cs ps : List Nat) (now : Int) (req : ResRequest),
      (postReservation { db with courts := cs, players := ps } now req =
        ((postReservation db now req).1,
          { (postReservation db now req).2 with
              courts := cs, players := ps })) ∧
      (conflictQuery db.reservations req.court_id req.start_time req.end_time
          ≠ [] →
        (postReservation db now req).2.waitlist =
          db.waitlist ++
            [{ id := db.nextWaitId, court_id := req.court_id,
               player_id := req.player_id, start_time := req.start_time,
               end_time := req.end_time, priority := 0,
               status := WStatus.waiting, created_at := now }]) := by
  intro db cs ps now req
  constructor
  · simp only [postReservation]
    split <;> rfl
  · intro h
    rw [postReservation_conflict_case db now req h]

/-- C9, witness: the degenerate request req9 conflicts and is enqueued. -/
theorem C9_no_validation_witness :
    conflictQuery db9.reservations req9.court_id req9.start_time req9.end_time
        ≠ [] ∧
    (postReservation db9 3 req9).2.waitlist =
      db9.waitlist ++
        [{ id := db9.nextWaitId, court_id := req9.court_id,
           player_id := req9.player_id, start_time := req9.start_time,
           end_time := req9.end_time, priority := 0,
           status := WStatus.waiting, created_at := 3 }] :=
  ⟨by decide, (C9_no_validation db9 [] [] 3 req9).2 (by decide)⟩

/-- C10: every reservation created by the promotion branch of
PATCH /api/waitlist/:id has status booked and price_cents 0 (hard-coded at
lines 323-326 of the source), whatever the entry's fields or the update's
fields. -/
theorem C10_promoted_booking_fields (db : DB) (wid : Nat) (p : WaitPatch)
    (r : Reservation) (db' : DB)
    (h : patchWaitlist db wid p = (WaitPatchResult.promoted r, db')) :
    r.status = RStatus.booked ∧ r.price_cents = 0 :=
  ⟨(patchWaitlist_promoted_spec h).2.1, (patchWaitlist_promoted_spec h).2.2.1⟩

/-- C10, witness at the concrete promoting update of dbP. -/
theorem C10_promoted_booking_fields_witness :
    patchWaitlist dbP 1 pP = (WaitPatchResult.promoted rP, dbPafter) ∧
    (rP.status = RStatus.booked ∧ rP.price_cents = 0) :=
  ⟨by decide, C10_promoted_booking_fields dbP 1 pP rP dbPafter (by decide)⟩

end Pickleball
